import Mathlib

/-!
Shallow embedding of the operation envelope and response pipeline of
`fuseops/common_op.go`, and of the file-metadata matchers of the
`fusetesting` package, together with theorems about the claims of the
specification.

Effects (trace-span completion, log lines, reply-channel submissions) are
modelled as an explicit list of events in program order.
-/

namespace fuseops

/-- Go `error` values: `none` is Go `nil`, `some msg` a non-nil error whose
`Error()` text is `msg`. -/
abbrev GoError := Option String

/-- Observable effects of the envelope code, listed in program order. -/
inductive Event where
  /-- the reqtrace span-completion function is invoked with the final error -/
  | traceReport (err : GoError)
  /-- the caller-supplied base completion callback is invoked with the final error -/
  | baseFinish (err : GoError)
  /-- a line is written to the debug-log sink -/
  | debugLine (line : String)
  /-- a line is written to the error logger -/
  | errorLine (line : String)
  /-- the variant's success-encoded response is submitted to the reply channel
  for the request with the given fuse unique ID -/
  | replySuccess (fuseID : Nat)
  /-- an error-coded reply is submitted to the reply channel for the request
  with the given fuse unique ID -/
  | replyError (fuseID : Nat) (msg : String)
  deriving DecidableEq

/-- Completion callbacks (Go `func(error)` values) are modelled by the list of
observable effects they perform on the error they receive. -/
abbrev Callback := GoError → List Event

/-- Modelled from the spec: the span-completion function obtained from the
trace provider (an external collaborator,
`StartSpan(context, label) -> (context, completionFn(error))`); invoking it
reports the final error value to the trace span. -/
def reportForTrace : Callback := fun err => [Event.traceReport err]

/-- The caller-supplied base completion callback (the `finished` argument of
`commonOp.init`), modelled as one atomic observable action carrying the error
it receives. -/
def baseFinished : Callback := fun err => [Event.baseFinish err]

/-- The concrete operation variant in which the `commonOp` is embedded, as the
reflection in `ShortDesc` sees it: its dynamic type name, and the value of its
`Inode` field when the concrete struct has one (`none` models the case where
`FieldByName("Inode")` yields no valid field). -/
structure OpVariant where
  typeName : String
  inode : Option Nat
  deriving DecidableEq

/-- A helper for embedding common behavior (struct `commonOp`). The context is
not modelled; `debugLog` and `errorLogger` record whether each optional sink is
configured (non-nil); `finished` is the stored completion callback. -/
structure commonOp where
  op : OpVariant
  fuseID : Nat
  debugLog : Bool
  errorLogger : Bool
  finished : Callback

/-- Function `commonOp.ShortDesc` (common_op.go lines 68-86). `opName` is the
variant's dynamic type name; when it begins with the package qualification and
ends with the generic suffix, both are stripped. The byte-level Go operations
`strings.HasPrefix`, `strings.HasSuffix` and the slice `opName[9:len(opName)-2]`
are rendered on the character list, which agrees for these ASCII names; the
slice equals dropping 9 characters in front and 2 behind, and for any name
where both convention tests succeed the length is at least 11, so the Go slice
is well defined. The named result `desc` starts out empty and is
assigned only inside the `Inode` branch, exactly as in the source. -/
def commonOp.ShortDesc (o : commonOp) : String :=
  let opName := o.op.typeName
  let opName2 :=
    if "*fuseops.".data.isPrefixOf opName.data && "Op".data.isSuffixOf opName.data then
      String.mk ((opName.data.drop 9).dropLast.dropLast)
    else
      opName
  match o.op.inode with
  | some v => opName2 ++ "(inode=" ++ toString v ++ ")"
  | none => ""

/-- Function `commonOp.init` (common_op.go lines 88-113): stores the fields and
replaces the stored completion callback with a wrapper that reports to the
trace span and then calls the previously stored callback. -/
def commonOp.init (op : OpVariant) (fuseID : Nat) (debugLog errorLogger : Bool)
    (finished : Callback) : commonOp :=
  { op := op, fuseID := fuseID, debugLog := debugLog, errorLogger := errorLogger,
    finished := fun err => reportForTrace err ++ finished err }

/-- An envelope as the dispatcher hands it to application logic: initialized
with the caller-supplied base completion callback. -/
def mkOp (op : OpVariant) (fuseID : Nat) (debugLog errorLogger : Bool) : commonOp :=
  commonOp.init op fuseID debugLog errorLogger baseFinished

/-- Function `commonOp.Logf` (common_op.go lines 119-126): a no-op when no
debug sink is configured, otherwise one line to the debug sink (the fixed call
depth only affects source attribution and is not modelled; the line is taken
already formatted). -/
def commonOp.Logf (o : commonOp) (line : String) : List Event :=
  if o.debugLog then [Event.debugLine line] else []

/-- Modelled from the spec: the reply channel, an external collaborator
`Send(requestID, encodedBytes) -> error` that may fail (e.g. the mount is
gone); `send` gives the outcome the transport produces for a submission
bearing a given request identifier. -/
structure ReplyChannel where
  send : Nat → GoError

/-- Modelled from the spec: `o.op.respond()` (not under src/) — the variant
encodes its own success response and submits it, together with the stored
request identifier, to the reply channel exactly once; the submission's
delivery outcome accompanies the effect, but `Respond` below discards it,
as the source discards the result of this call. -/
def opRespond (ch : ReplyChannel) (o : commonOp) : List Event × GoError :=
  ([Event.replySuccess o.fuseID], ch.send o.fuseID)

/-- Modelled from the spec: `o.bazilReq.RespondError(err)` (fuseshim, not
under src/) — an error-coded reply correlated to the stored request identifier
is submitted to the reply channel exactly once; the submission's delivery
outcome accompanies the effect, but `Respond` below discards it, as the
source discards the result of this call. -/
def bazilRespondError (ch : ReplyChannel) (o : commonOp) (msg : String) :
    List Event × GoError :=
  ([Event.replyError o.fuseID msg], ch.send o.fuseID)

/-- Function `commonOp.Respond` (common_op.go lines 128-155): first
`o.finished(err)`; when `err == nil`, `o.op.respond()` and return; otherwise
the debug line (guarded by the sink check and routed through `Logf`), then the
error-logger line, then `o.bazilReq.RespondError(err)`. The source's Respond
returns nothing and discards the results of the two submission calls, so the
result here is only the sequence of observable effects in program order; the
delivery outcomes the channel produces are dropped on the floor, exactly as
in the source. -/
def commonOp.Respond (ch : ReplyChannel) (o : commonOp) (err : GoError) :
    List Event :=
  match err with
  | none =>
    o.finished none ++ (opRespond ch o).1
  | some msg =>
    let dbg :=
      if o.debugLog then
        o.Logf ("-> (" ++ o.ShortDesc ++ ") error: " ++ msg)
      else []
    let elog :=
      if o.errorLogger then
        [Event.errorLine ("(" ++ o.ShortDesc ++ ") error: " ++ msg)]
      else []
    o.finished (some msg) ++ (dbg ++ (elog ++ (bazilRespondError ch o msg).1))

/-- Whether an event is a reply-channel submission. -/
def isReplyEvent : Event → Bool
  | Event.replySuccess _ => true
  | Event.replyError _ _ => true
  | _ => false

/-- Whether an event is a trace-span completion. -/
def isTraceReport : Event → Bool
  | Event.traceReport _ => true
  | _ => false

/-- Whether an event is the base completion callback firing. -/
def isBaseFinish : Event → Bool
  | Event.baseFinish _ => true
  | _ => false

/-- Whether an event is a debug-sink line. -/
def isDebugLine : Event → Bool
  | Event.debugLine _ => true
  | _ => false

/-- Whether an event is an error-logger line. -/
def isErrorLine : Event → Bool
  | Event.errorLine _ => true
  | _ => false

/-- Whether an event is a line on either log sink. -/
def isLogEvent (e : Event) : Bool := isDebugLine e || isErrorLine e

/-- Whether a reply-channel submission carries the given request identifier. -/
def carriesID (fuseID : Nat) : Event → Bool
  | Event.replySuccess i => i == fuseID
  | Event.replyError i _ => i == fuseID
  | _ => false

/-- The one reply-channel submission `Respond` performs for a given error. -/
def replyEvent (fuseID : Nat) : GoError → Event
  | none => Event.replySuccess fuseID
  | some msg => Event.replyError fuseID msg

/-- The short-description algorithm as the spec words it (section 4.2): the
bare name — package qualification and trailing generic suffix stripped when
the type name matches the convention, the raw type name unmodified otherwise —
with `(inode=<value>)` appended exactly when the variant exposes an `Inode`
field, and the bare name alone otherwise. -/
def specShortDesc (op : OpVariant) : String :=
  let bare :=
    if "*fuseops.".data.isPrefixOf op.typeName.data && "Op".data.isSuffixOf op.typeName.data then
      String.mk ((op.typeName.data.drop 9).dropLast.dropLast)
    else
      op.typeName
  match op.inode with
  | some v => bare ++ "(inode=" ++ toString v ++ ")"
  | none => bare

/-- A concrete initialized envelope, used for closed counterexamples. -/
def sampleOp : commonOp := mkOp ⟨"*fuseops.FlushFileOp", some 17⟩ 42 true true

/-- A concrete reply channel whose deliveries all succeed. -/
def sampleChannel : ReplyChannel := ⟨fun _ => none⟩

/-- A concrete reply channel whose deliveries all fail, as when the kernel
connection is gone. -/
def failChannel : ReplyChannel := ⟨fun _ => some "mount gone"⟩

end fuseops

namespace fusetesting

/-!
Instants of Go `time.Time` are modelled as unbounded integer nanosecond
counts (the range of `time.Time` far exceeds what an int64 of nanoseconds
can hold), and the Go comparison of two instants by integer equality.
Values of Go `time.Duration` are int64 nanosecond counts: every duration the
matchers compute with lies in `[minDuration, maxDuration]`, and the
arithmetic that produces durations saturates or wraps at the int64 bounds —
see `timeSub` and `negInt64`.
-/

/-- Largest Go int64 / `time.Duration` value, 2^63 - 1 nanoseconds. -/
def maxDuration : Int := 9223372036854775807

/-- Smallest Go int64 / `time.Duration` value, -2^63 nanoseconds. -/
def minDuration : Int := -9223372036854775808

/-- Negation of a Go int64 / `time.Duration` value: two's complement wraps
modulo 2^64, so the negation of `minDuration` is `minDuration` itself. -/
def negInt64 (x : Int) : Int :=
  (-x + 9223372036854775808) % 18446744073709551616 - 9223372036854775808

/-- The Go method `time.Time.Sub`: the difference of two instants as a
`time.Duration`; per its documentation, if the result would exceed the
maximum (or minimum) value storable in a Duration, that extreme value is
returned (saturation). -/
def timeSub (t u : Int) : Int :=
  if maxDuration < t - u then maxDuration
  else if t - u < minDuration then minDuration
  else t - u

/-- The part of an `os.FileInfo` the matchers read: `ModTime()`, and the birth
time that `extractBirthtime` recovers from `Sys()` when the platform provides
one (`none` models the case where no birth time is available). -/
structure FileInfo where
  modTime : Int
  sysBirthtime : Option Int
  deriving DecidableEq

/-- A candidate value handed to a matcher: either an `os.FileInfo`, or a value
of some other dynamic type (only its printed type name matters). -/
inductive Candidate where
  | fileInfo (fi : FileInfo)
  | other (typeName : String)
  deriving DecidableEq

/-- An oglematchers matcher, as `NewMatcher` builds it: a predicate returning
`none` on a match and an explanatory text otherwise, plus a description. -/
structure Matcher where
  matchResult : Candidate → Option String
  description : String

/-- Function `mtimeIsWithin` (part_000 lines 40-58): type check, then compute
`diff := fi.ModTime().Sub(expected)` (a saturating int64 Duration), flip its
sign when negative with int64 negation (which wraps at `minDuration`), and
reject unless the resulting `absDiff` is strictly below the tolerance `d`. -/
def mtimeIsWithin (c : Candidate) (expected : Int) (d : Int) :
    Option String :=
  match c with
  | Candidate.other typeName => some ("which is of type " ++ typeName)
  | Candidate.fileInfo fi =>
    let diff := timeSub fi.modTime expected
    let absDiff := if diff < 0 then negInt64 diff else diff
    if ¬ (absDiff < d) then
      some ("which has mtime " ++ toString fi.modTime ++ ", off by " ++ toString diff)
    else
      none

/-- Function `MtimeIs` (part_000 lines 26-31): the mtime matcher with
tolerance 0. -/
def MtimeIs (expected : Int) : Matcher :=
  ⟨fun c => mtimeIsWithin c expected 0, "mtime is " ++ toString expected⟩

/-- Function `MtimeIsWithin` (part_000 lines 33-38). -/
def MtimeIsWithin (expected : Int) (d : Int) : Matcher :=
  ⟨fun c => mtimeIsWithin c expected d,
    "mtime is within " ++ toString d ++ " of " ++ toString expected⟩

/-- Function `birthtimeIs` (part_000 lines 69-87): type check; when a birth
time is extractable from `Sys()` and differs from the expected time, fail;
otherwise match. -/
def birthtimeIs (c : Candidate) (expected : Int) : Option String :=
  match c with
  | Candidate.other typeName => some ("which is of type " ++ typeName)
  | Candidate.fileInfo fi =>
    match fi.sysBirthtime with
    | some sysBirthtime =>
      if sysBirthtime ≠ expected then
        some ("which has Sys() birthtime " ++ toString sysBirthtime ++
          ", off by " ++ toString (sysBirthtime - expected))
      else
        none
    | none => none

/-- Function `BirthtimeIs` (part_000 lines 60-67). -/
def BirthtimeIs (expected : Int) : Matcher :=
  ⟨fun c => birthtimeIs c expected, "birthtime is " ++ toString expected⟩

end fusetesting

namespace fuseops

/-- Claim C10: on the success path — Respond called with a nil error — no line
is written to the debug sink or to the error logger, even when both sinks are
configured; Respond logs only on the error path. -/
theorem respond_success_emits_no_logs (ch : ReplyChannel) (op : OpVariant)
    (fuseID : Nat) (dl el : Bool) :
    (commonOp.Respond ch (mkOp op fuseID dl el) none).filter isLogEvent = [] := by
  simp [commonOp.Respond, mkOp, commonOp.init, reportForTrace, baseFinished,
    opRespond, isLogEvent, isDebugLine, isErrorLine]

end fuseops

namespace fuseops

/-- Claim C1, counterexample: a sequence of two Respond calls on a single
envelope puts two messages on the reply channel, not exactly one — the code
has no guard against double-respond. -/
theorem respond_twice_two_replies :
    ¬ (((commonOp.Respond sampleChannel sampleOp none ++
          commonOp.Respond sampleChannel sampleOp none).filter
          isReplyEvent).length = 1) := by
  decide

/-- Claim C1, amended: each single Respond call on an initialized envelope
puts exactly one message on the reply channel, and that message carries the
envelope's request identifier; the envelope does not detect repeated calls,
each of which submits again. -/
theorem respond_once_exactly_one_reply (ch : ReplyChannel) (op : OpVariant)
    (fuseID : Nat) (dl el : Bool) (err : GoError) :
    ((commonOp.Respond ch (mkOp op fuseID dl el) err).filter isReplyEvent =
      [replyEvent fuseID err]) ∧
    carriesID fuseID (replyEvent fuseID err) = true := by
  constructor
  · cases err <;> cases dl <;> cases el <;>
      simp [commonOp.Respond, mkOp, commonOp.init, baseFinished, reportForTrace,
        opRespond, bazilRespondError, commonOp.Logf, isReplyEvent, replyEvent]
  · cases err <;> simp [carriesID, replyEvent]

/-- Claim C2: one Respond call performs exactly one reply-channel write — the
success submission when the error is nil, the error-coded submission otherwise
— and exactly one trace-span completion; the reply submission is the final
effect of the call, so the trace completion and any log lines strictly
precede it. -/
theorem respond_effect_sequence (ch : ReplyChannel) (op : OpVariant)
    (fuseID : Nat) (dl el : Bool) (err : GoError) :
    ((commonOp.Respond ch (mkOp op fuseID dl el) err).filter isReplyEvent =
      [replyEvent fuseID err]) ∧
    ((commonOp.Respond ch (mkOp op fuseID dl el) err).filter isTraceReport =
      [Event.traceReport err]) ∧
    ((commonOp.Respond ch (mkOp op fuseID dl el) err).getLast? =
      some (replyEvent fuseID err)) := by
  refine ⟨?_, ?_, ?_⟩ <;>
    cases err <;> cases dl <;> cases el <;>
      simp [commonOp.Respond, mkOp, commonOp.init, baseFinished, reportForTrace,
        opRespond, bazilRespondError, commonOp.Logf, isReplyEvent, isTraceReport,
        replyEvent, List.getLast?]

/-- Claim C4, counterexample: at a concrete reply channel whose delivery
fails, Respond behaves exactly as at a channel whose delivery succeeds, on
both the success-reply and the error-reply submission path — and the source's
Respond returns no value at all — so the delivery failure is discarded, not
propagated to the caller of Respond as the claim states. -/
theorem respond_failure_invisible_counterexample :
    (commonOp.Respond failChannel sampleOp none =
      commonOp.Respond sampleChannel sampleOp none) ∧
    (commonOp.Respond failChannel sampleOp (some "boom") =
      commonOp.Respond sampleChannel sampleOp (some "boom")) := by
  decide

/-- Claim C4, amended: a reply-channel delivery failure is indeed not retried
— Respond performs exactly one submission on either path, and its whole
effect sequence is the same whatever outcome the channel produces — but the
failure is not propagated to the caller either: Respond returns nothing and
discards the results of the two submission calls. -/
theorem respond_no_retry_discards_outcome (ch ch2 : ReplyChannel) (op : OpVariant)
    (fuseID : Nat) (dl el : Bool) (err : GoError) :
    (((commonOp.Respond ch (mkOp op fuseID dl el) err).filter isReplyEvent).length = 1) ∧
    (commonOp.Respond ch (mkOp op fuseID dl el) err =
      commonOp.Respond ch2 (mkOp op fuseID dl el) err) := by
  constructor <;>
    cases err <;> cases dl <;> cases el <;>
      simp [commonOp.Respond, mkOp, commonOp.init, baseFinished, reportForTrace,
        opRespond, bazilRespondError, commonOp.Logf, isReplyEvent]

/-- Claim C5: for a non-nil error, Respond submits exactly one error-coded
reply bearing the envelope's request identifier; a debug-sink line and an
error-logger line, each consisting of the short description and the error
text in the source's format, are written exactly when the respective sink is
configured, each independently of the other; and with both sinks absent the
whole effect sequence is trace completion, base callback, and the one reply
submission — the reply still goes out exactly once and Respond performs
nothing else, raising no error of its own (it returns no value). -/
theorem respond_error_path_logging (ch : ReplyChannel) (op : OpVariant)
    (fuseID : Nat) (dl el : Bool) (msg : String) :
    ((commonOp.Respond ch (mkOp op fuseID dl el) (some msg)).filter isReplyEvent =
      [Event.replyError fuseID msg]) ∧
    ((commonOp.Respond ch (mkOp op fuseID dl el) (some msg)).filter isDebugLine =
      if dl then
        [Event.debugLine ("-> (" ++ (mkOp op fuseID dl el).ShortDesc ++ ") error: " ++ msg)]
      else []) ∧
    ((commonOp.Respond ch (mkOp op fuseID dl el) (some msg)).filter isErrorLine =
      if el then
        [Event.errorLine ("(" ++ (mkOp op fuseID dl el).ShortDesc ++ ") error: " ++ msg)]
      else []) ∧
    (commonOp.Respond ch (mkOp op fuseID false false) (some msg) =
      [Event.traceReport (some msg), Event.baseFinish (some msg),
        Event.replyError fuseID msg]) := by
  refine ⟨?_, ?_, ?_, ?_⟩ <;>
    cases dl <;> cases el <;>
      simp [commonOp.Respond, mkOp, commonOp.init, baseFinished, reportForTrace,
        opRespond, bazilRespondError, commonOp.Logf, isReplyEvent, isDebugLine,
        isErrorLine]

/-- Claim C6: after init the stored completion callback is a wrapper that
first invokes the trace-span completion with the error it is given and then
the originally supplied base callback with the same error; accordingly the
first two effects of a Respond call are the trace completion and then the
base callback, each carrying exactly the error passed to Respond. -/
theorem init_chains_trace_before_base (base : Callback) (op : OpVariant)
    (fuseID : Nat) (dl el : Bool) (err : GoError) (ch : ReplyChannel) :
    ((commonOp.init op fuseID dl el base).finished err =
      Event.traceReport err :: base err) ∧
    ((commonOp.Respond ch (mkOp op fuseID dl el) err).take 2 =
      [Event.traceReport err, Event.baseFinish err]) := by
  constructor
  · simp [commonOp.init, reportForTrace]
  · cases err <;> cases dl <;> cases el <;>
      simp [commonOp.Respond, mkOp, commonOp.init, reportForTrace, baseFinished,
        opRespond, bazilRespondError, commonOp.Logf]

/-- Claim C3 (code bug): for any variant without an Inode field the source's
ShortDesc returns the empty string — the named result is assigned only inside
the Inode branch — while the spec-worded algorithm returns the bare operation
name, as evaluated here at a variant of dynamic type *fuseops.InitOp. -/
theorem shortDesc_no_inode_empty :
    (∀ (name : String) (fuseID : Nat) (dl el : Bool),
      (mkOp ⟨name, none⟩ fuseID dl el).ShortDesc = "") ∧
    (mkOp ⟨"*fuseops.InitOp", none⟩ 7 false false).ShortDesc = "" ∧
    specShortDesc ⟨"*fuseops.InitOp", none⟩ = "Init" := by
  refine ⟨?_, ?_, ?_⟩
  · intro name fuseID dl el
    simp [mkOp, commonOp.init, commonOp.ShortDesc]
  · decide
  · decide

/-- Claim C7, counterexample: for a variant whose type name does not match the
naming convention and which has no Inode field, ShortDesc returns the empty
string, not the raw type name. -/
theorem shortDesc_nonconvention_counterexample :
    ¬ ((mkOp ⟨"*oswrap.Stat", none⟩ 3 false false).ShortDesc = "*oswrap.Stat") := by
  decide

/-- Claim C7, amended: for every variant that exposes an Inode field, the
source ShortDesc agrees with the spec-worded algorithm — the bare name with
the package qualification and the generic suffix stripped when the type name
matches the convention, the raw type name unmodified otherwise, followed by
the inode suffix. -/
theorem shortDesc_with_inode_matches_spec (name : String) (v : Nat)
    (fuseID : Nat) (dl el : Bool) :
    (mkOp ⟨name, some v⟩ fuseID dl el).ShortDesc = specShortDesc ⟨name, some v⟩ := by
  simp [mkOp, commonOp.init, commonOp.ShortDesc, specShortDesc]

end fuseops

namespace fusetesting

/-- Claim C8: the birth-time matcher matches every os.FileInfo whose Sys()
value yields no extractable birth time, whatever the expected time; it fails
exactly when the candidate is not an os.FileInfo, or when a birth time is
extractable and differs from the expected time. -/
theorem birthtime_matcher_noop_without_birthtime (expected : Int)
    (c : Candidate) :
    (BirthtimeIs expected).matchResult c = none ↔
      ∃ fi, c = Candidate.fileInfo fi ∧
        (fi.sysBirthtime = none ∨ fi.sysBirthtime = some expected) := by
  cases c with
  | other t => simp [BirthtimeIs, birthtimeIs]
  | fileInfo fi =>
    cases h : fi.sysBirthtime with
    | none => simp [BirthtimeIs, birthtimeIs, h]
    | some t =>
      by_cases ht : t = expected <;> simp [BirthtimeIs, birthtimeIs, h, ht]

/-- Claim C9, counterexample: an os.FileInfo whose ModTime lies exactly 2^63
nanoseconds before the expected time is ACCEPTED by MtimeIs — its saturated
difference is the minimum int64 duration, whose int64 negation wraps back to
itself and stays negative, hence below the tolerance 0 — although the
absolute difference is not below 0, refuting both the strict
absolute-difference criterion and the assertion that MtimeIs rejects every
os.FileInfo. -/
theorem mtime_matcher_wrap_counterexample :
    ((MtimeIs 0).matchResult (Candidate.fileInfo ⟨minDuration, none⟩) = none) ∧
    ¬ (|minDuration - (0 : Int)| < (0 : Int)) := by
  decide

/-- Claim C9, amended: the mtime matcher accepts an os.FileInfo exactly when
the saturated int64 difference between its ModTime and the expected time,
sign-flipped by wrapping int64 negation when negative, is strictly below the
tolerance — for in-range differences that is the strict absolute-difference
criterion, but a difference at or below the int64 minimum leaves the computed
value negative. So MtimeIs, which uses tolerance 0, rejects every os.FileInfo
whose ModTime is less than 2^63 nanoseconds away from the expected time — an
exactly-equal ModTime included, despite MtimeIs's documentation — and accepts
exactly those at least 2^63 nanoseconds before it. -/
theorem mtime_matcher_saturating_tolerance (expected : Int) (d : Int)
    (fi : FileInfo) :
    (mtimeIsWithin (Candidate.fileInfo fi) expected d = none ↔
      (if maxDuration < fi.modTime - expected then maxDuration < d
       else if fi.modTime - expected ≤ minDuration then minDuration < d
       else |fi.modTime - expected| < d)) ∧
    ((MtimeIs expected).matchResult (Candidate.fileInfo fi) = none ↔
      fi.modTime - expected ≤ minDuration) ∧
    ((MtimeIs expected).matchResult
      (Candidate.fileInfo ⟨expected, none⟩)).isSome = true := by
  have hnegmin : negInt64 minDuration = minDuration := by decide
  have hneg : ∀ x : Int, minDuration < x → x < 0 → negInt64 x = -x := by
    intro x h1 h2
    unfold negInt64
    unfold minDuration at h1
    omega
  have main : ∀ dd : Int,
      (mtimeIsWithin (Candidate.fileInfo fi) expected dd = none ↔
        (if maxDuration < fi.modTime - expected then maxDuration < dd
         else if fi.modTime - expected ≤ minDuration then minDuration < dd
         else |fi.modTime - expected| < dd)) := by
    intro dd
    by_cases hA : maxDuration < fi.modTime - expected
    · rw [if_pos hA]
      simp only [mtimeIsWithin, timeSub]
      rw [if_pos hA]
      rw [if_neg (show ¬ ((maxDuration : Int) < 0) by decide)]
      by_cases hd : maxDuration < dd <;> simp [hd]
    · rw [if_neg hA]
      by_cases hB : fi.modTime - expected ≤ minDuration
      · rw [if_pos hB]
        simp only [mtimeIsWithin, timeSub]
        rw [if_neg hA]
        have hdiff : (if fi.modTime - expected < minDuration then minDuration
            else fi.modTime - expected) = minDuration := by
          by_cases hBlt : fi.modTime - expected < minDuration
          · rw [if_pos hBlt]
          · rw [if_neg hBlt]
            exact le_antisymm hB (not_lt.mp hBlt)
        rw [hdiff]
        rw [if_pos (show (minDuration : Int) < 0 by decide), hnegmin]
        by_cases hd : minDuration < dd <;> simp [hd]
      · rw [if_neg hB]
        simp only [mtimeIsWithin, timeSub]
        rw [if_neg hA]
        rw [if_neg (show ¬ (fi.modTime - expected < minDuration) from
          fun h => hB (le_of_lt h))]
        by_cases hneg0 : fi.modTime - expected < 0
        · rw [if_pos hneg0, hneg _ (lt_of_not_le hB) hneg0, abs_of_neg hneg0]
          by_cases hd : -(fi.modTime - expected) < dd <;> simp [hd]
        · rw [if_neg hneg0, abs_of_nonneg (le_of_not_lt hneg0)]
          by_cases hd : fi.modTime - expected < dd <;> simp [hd]
  refine ⟨main d, ?_, ?_⟩
  · rw [show (MtimeIs expected).matchResult (Candidate.fileInfo fi) =
        mtimeIsWithin (Candidate.fileInfo fi) expected 0 from rfl, main 0]
    have habs : ¬ (|fi.modTime - expected| < 0) := not_lt.mpr (abs_nonneg _)
    simp only [maxDuration, minDuration] at *
    split_ifs with h1 h2
    · constructor <;> intro h <;> omega
    · constructor <;> intro h <;> omega
    · simp [habs, h2]
  · rw [show (MtimeIs expected).matchResult (Candidate.fileInfo ⟨expected, none⟩) =
        mtimeIsWithin (Candidate.fileInfo ⟨expected, none⟩) expected 0 from rfl]
    simp only [mtimeIsWithin, timeSub, sub_self]
    norm_num [maxDuration, minDuration]

end fusetesting
